import Mathlib

/-!
Shallow embedding of the zkest-agent-sdk automation core
(packages/python/zkest_sdk/agent.py and websocket.py) and proofs of the
specified properties of the Decision Registry, the Automation Runner and
the Event Dispatcher.
-/

namespace ZkestSDK

/-! ### Data model (types.py) -/

/-- Verification status enum (types.py, class VerificationStatus). -/
inductive VerificationStatus
  | pending
  | approved
  | rejected
  | moreInfoRequested
deriving DecidableEq, Repr

/-- A JSON-like value stored in a task dict.  Scores are passed through
verbatim by the code (no arithmetic is performed on them), so an integer
carrier for numbers loses nothing for the verified properties. -/
inductive JVal
  | null
  | str (s : String)
  | num (n : Int)
deriving DecidableEq, Repr

/-- Result returned by a verification callback (types.py, VerificationResult). -/
structure VerificationResult where
  valid : Bool
  score : Option Int := none
  feedback : Option String := none
  evidence : Option String := none
  metadata : List (String × JVal) := []
deriving DecidableEq, Repr

/-- Result returned by an approval callback (types.py, ValidationResult). -/
structure ValidationResult where
  valid : Bool
  reason : Option String := none
  errors : List String := []
  metadata : List (String × JVal) := []
deriving DecidableEq, Repr

/-- A pending verification item as fetched from the Gateway
(fields of the Verification record read by agent.py). -/
structure Verification where
  id : String
  agent_id : String
  skill : Option String := none
  evidence_url : Option String := none
  status : VerificationStatus := VerificationStatus.pending
  score : Option Int := none
  feedback : Option String := none
deriving DecidableEq, Repr

/-- The task dict handed to a decision callback.  A field holding none
models a key that is absent from the Python dict; a field holding
some JVal.null models a key present with value None. -/
structure TaskData where
  id : Option JVal := none
  agentId : Option JVal := none
  skill : Option JVal := none
  taskType : Option JVal := none
  evidenceUrl : Option JVal := none
  score : Option JVal := none
  feedback : Option JVal := none
deriving DecidableEq, Repr

/-! ### Decision Registry (agent.py, the _callbacks dict) -/

/-- A Python dict from skill key to callback, as an association list with
at most one entry per key (dicts cannot hold duplicate keys). -/
abbrev Registry (α : Type) := List (String × α)

/-- Dict lookup: self._callbacks.get(skill). -/
def dictGet {α : Type} : Registry α → String → Option α
  | [], _ => none
  | (k0, v0) :: rest, k => if k0 == k then some v0 else dictGet rest k

/-- Dict assignment self._callbacks[skill] = callback: overwrite in place
when the key exists, append otherwise (register_callback in agent.py). -/
def register_callback {α : Type} : Registry α → String → α → Registry α
  | [], k, v => [(k, v)]
  | (k0, v0) :: rest, k, v =>
      if k0 == k then (k0, v) :: rest
      else (k0, v0) :: register_callback rest k v

/-- Dict deletion guarded by membership (unregister_callback in agent.py).
On a duplicate-free dict, deleting the unique entry for the key is
removing every entry with that key. -/
def unregister_callback {α : Type} : Registry α → String → Registry α
  | [], _ => []
  | (k0, v0) :: rest, k =>
      if k0 == k then unregister_callback rest k
      else (k0, v0) :: unregister_callback rest k

/-- task.get("skill", task.get("taskType", "other")) in verify_task /
validate_result: the value of the skill key when present (even if None),
else the value of the taskType key when present, else the string "other". -/
def resolvedSkill (t : TaskData) : JVal :=
  t.skill.getD (t.taskType.getD (JVal.str "other"))

/-- self._callbacks.get(key) where key is the resolved skill value: a None
key never equals any registered string key, so it never finds a callback. -/
def lookupCallback {α : Type} (r : Registry α) : JVal → Option α
  | JVal.null => none
  | JVal.str s => dictGet r s
  | JVal.num _ => none

/-! ### Verifier decision logic (agent.py, AutoVerifier) -/

/-- A verification callback: raising an exception with message e is
modelled as returning Except.error e. -/
abbrev VCallback := TaskData → Except String VerificationResult

/-- Message text wrapped around a raised error (agent.py line 105). -/
def errText (e : String) : String := "검증 중 오류 발생: " ++ e

/-- AutoVerifier._default_verification. -/
def default_verification (_t : TaskData) : VerificationResult :=
  { valid := true, score := some 70, feedback := some "자동 검증 완료" }

/-- AutoVerifier.verify_task: resolve a callback by skill key, invoke it
catching any raised error into a degraded result, or fall back to the
default verification when no callback is registered. -/
def verify_task (cbs : Registry VCallback) (t : TaskData) : VerificationResult :=
  match lookupCallback cbs (resolvedSkill t) with
  | some cb =>
      match cb t with
      | Except.ok r => r
      | Except.error e =>
          { valid := false, score := some 0, feedback := some (errText e) }
  | none => default_verification t

/-- Payload built by AutoVerifier.submit_verification from a result. -/
structure SubmitData where
  status : VerificationStatus
  score : Option Int
  feedback : Option String
  evidence : Option String
  metadata : List (String × JVal)
deriving DecidableEq, Repr

/-- The dict submit_verification sends to client.update_verification. -/
def submitDataOf (r : VerificationResult) : SubmitData :=
  { status := if r.valid then VerificationStatus.approved else VerificationStatus.rejected
    score := r.score
    feedback := r.feedback
    evidence := r.evidence
    metadata := r.metadata }

/-- The task_data dict built inside AutoVerifier._run_loop: the keys id,
agent_id, skill and evidence_url are always present (their values may be
None); no taskType key is ever put in this dict. -/
def taskDataOf (v : Verification) : TaskData :=
  { id := some (JVal.str v.id)
    agentId := some (JVal.str v.agent_id)
    skill := some ((v.skill.map JVal.str).getD JVal.null)
    evidenceUrl := some ((v.evidence_url.map JVal.str).getD JVal.null) }

/-! ### Verifier run loop (agent.py, AutoVerifier._run_loop) -/

/-- The Gateway environment observed during one tick: the outcome of the
fetch and the outcome of each submission. -/
structure TickEnv where
  fetchResult : Except String (List Verification)
  submitResult : String → SubmitData → Except String Unit

/-- What happened to one fetched item during a tick. -/
inductive ItemOutcome
  | submitted (id : String) (payload : SubmitData)
  | submitFailed (id : String) (payload : SubmitData) (err : String)
deriving DecidableEq, Repr

/-- The per-item body of the for loop in _run_loop: verify the task (this
never raises: callback errors were converted inside verify_task), submit
the result, and catch a submission failure per item. -/
def processItem (cbs : Registry VCallback) (env : TickEnv) (v : Verification) :
    ItemOutcome :=
  let r := verify_task cbs (taskDataOf v)
  let payload := submitDataOf r
  match env.submitResult v.id payload with
  | Except.ok _ => ItemOutcome.submitted v.id payload
  | Except.error e => ItemOutcome.submitFailed v.id payload e

/-- Outcome of one tick of the polling loop.  Both constructors lead to
the same continuation in the source: log, sleep, poll again. -/
inductive TickResult
  | fetchError (e : String)
  | processed (outcomes : List ItemOutcome)
deriving DecidableEq, Repr

/-- One tick of AutoVerifier._run_loop: fetch pending verifications,
catching a fetch failure for the whole tick, otherwise process every item
in order with per-item isolation. -/
def runTick (cbs : Registry VCallback) (env : TickEnv) : TickResult :=
  match env.fetchResult with
  | Except.error e => TickResult.fetchError e
  | Except.ok vs => TickResult.processed (vs.map (processItem cbs env))

/-- The polling loop while _running stays true, one TickEnv per tick: every
tick runs to a TickResult and the loop proceeds to the next tick
regardless of that result. -/
def run_loop (cbs : Registry VCallback) (envs : List TickEnv) : List TickResult :=
  envs.map (runTick cbs)

/-! ### Approver decision logic (agent.py, AutoApprover) -/

/-- An approval callback: raising is modelled as Except.error. -/
abbrev ACallback := TaskData → Except String ValidationResult

/-- AutoApprover.validate_result: same resolution and error conversion as
the verifier, with the approver default and degraded shapes. -/
def validate_result (cbs : Registry ACallback) (t : TaskData) : ValidationResult :=
  match lookupCallback cbs (resolvedSkill t) with
  | some cb =>
      match cb t with
      | Except.ok r => r
      | Except.error e => { valid := false, reason := some (errText e) }
  | none => { valid := true }

/-- Python truthiness fallback a or b on strings: None and the empty
string are falsy. -/
def pyOrStr (a : Option String) (b : String) : String :=
  match a with
  | none => b
  | some s => if s = "" then b else s

/-- The task_data dict built inside AutoApprover._run_loop (keys id,
agent_id, skill, score, feedback; no taskType key). -/
def approverTaskDataOf (v : Verification) : TaskData :=
  { id := some (JVal.str v.id)
    agentId := some (JVal.str v.agent_id)
    skill := some ((v.skill.map JVal.str).getD JVal.null)
    score := some ((v.score.map JVal.num).getD JVal.null)
    feedback := some ((v.feedback.map JVal.str).getD JVal.null) }

/-- The Gateway call issued for one item by the approver loop. -/
inductive ApproverAction
  | approveCall (id : String)
  | rejectCall (id : String) (reason : String)
  | skipped (id : String)
deriving DecidableEq, Repr

/-- The per-item body of AutoApprover._run_loop: only items whose status
is already approved are validated; a valid result leads to approve, an
invalid one to reject with result.reason or the fallback reason. -/
def approverProcessItem (cbs : Registry ACallback) (v : Verification) :
    ApproverAction :=
  if v.status = VerificationStatus.approved then
    let r := validate_result cbs (approverTaskDataOf v)
    if r.valid then ApproverAction.approveCall v.id
    else ApproverAction.rejectCall v.id (pyOrStr r.reason "검증 실패")
  else ApproverAction.skipped v.id

/-! ### Runner lifecycle (agent.py, AutoVerifier.start / AutoVerifier.stop) -/

/-- The lifecycle fields of a runner: the _running flag and the _task
handle. -/
structure RunnerLifecycle where
  running : Bool := false
  task : Option Nat := none
deriving DecidableEq, Repr

/-- AutoVerifier.start: a no-op when already running, otherwise set the
flag and create one background task.  The second component counts the
tasks created by this call. -/
def start (st : RunnerLifecycle) (newTaskId : Nat) : RunnerLifecycle × Nat :=
  if st.running then (st, 0)
  else ({ running := true, task := some newTaskId }, 1)

/-- AutoVerifier.stop: an early return when not running, otherwise clear
the flag, cancel the task and await it, swallowing the cancellation.  In
both branches the call returns without raising, which Except.ok records. -/
def stop (st : RunnerLifecycle) : Except String RunnerLifecycle :=
  if st.running then Except.ok { running := false, task := st.task }
  else Except.ok st

/-! ### Stop quiescence as a transition system (agent.py lines 162-206)

Gateway calls (fetch and submit) are made only from the body of the
background task, so they can occur only while that task has not finished;
the await of the cancelled task inside stop completes only once the task
has finished (asyncio join semantics), and stop has already cleared the
_running flag before that await.  The step relation below records exactly
these three facts about the source. -/

/-- Observable scheduler state for one runner after start(): the _running
flag, whether the background task has not yet finished, and whether
stop() has returned. -/
structure RunnerSys where
  running : Bool
  taskAlive : Bool
  stopReturned : Bool
deriving DecidableEq, Repr

/-- Scheduler events relevant to the stop contract. -/
inductive REvent
  | gatewayCall
  | taskExit
  | stopBegin
  | stopReturn
deriving DecidableEq, Repr

/-- Interleaved small steps of the background task and a stop() call. -/
inductive RStep : RunnerSys → REvent → RunnerSys → Prop
  | gateway (s : RunnerSys) : s.taskAlive = true → RStep s REvent.gatewayCall s
  | texit (s : RunnerSys) : s.taskAlive = true →
      RStep s REvent.taskExit { s with taskAlive := false }
  | sbegin (s : RunnerSys) : RStep s REvent.stopBegin { s with running := false }
  | sreturn (s : RunnerSys) : s.running = false → s.taskAlive = false →
      RStep s REvent.stopReturn { s with stopReturned := true }

/-- A finite execution through RStep. -/
inductive RTrace : RunnerSys → List REvent → RunnerSys → Prop
  | nil (s : RunnerSys) : RTrace s [] s
  | cons {s s2 s3 : RunnerSys} {e : REvent} {es : List REvent} :
      RStep s e s2 → RTrace s2 es s3 → RTrace s (e :: es) s3

/-- The state right after start(): flag set, task alive, stop not
returned. -/
def initRunnerSys : RunnerSys :=
  { running := true, taskAlive := true, stopReturned := false }

/-! ### Event Dispatcher (websocket.py, VerificationStream) -/

/-- Handlers are compared by identity in the source; an abstract id
stands for a handler function. -/
abbrev HandlerId := Nat

/-- The _event_handlers dict: event name to ordered handler list. -/
abbrev HMap := List (String × List HandlerId)

/-- Dict lookup in the handler map. -/
def hmapFind : HMap → String → Option (List HandlerId)
  | [], _ => none
  | (k0, hs) :: rest, k => if k0 == k then some hs else hmapFind rest k

/-- VerificationStream.on (the name on is a reserved Lean token): create
an empty list for a new event name, then append the handler to the list
for that name. -/
def onEvent : HMap → String → HandlerId → HMap
  | [], ev, h => [(ev, [h])]
  | (k0, hs) :: rest, ev, h =>
      if k0 == ev then (k0, hs ++ [h]) :: rest
      else (k0, hs) :: onEvent rest ev h

/-- An inbound frame after JSON decoding.  A field holding none models a
key that is absent or holds a falsy None (dict.get returns None for
both); the type field of the source dict is spelled etype here. -/
structure Frame where
  event : Option String := none
  etype : Option String := none
  payloadData : Option JVal := none
deriving DecidableEq, Repr

/-- Python a or b on two optional strings, as in
data.get("event") or data.get("type"): an empty string is falsy. -/
def pyOr (a b : Option String) : Option String :=
  match a with
  | none => b
  | some s => if s = "" then b else some s

/-- VerificationStream._handle_message: pick the event name from the
event field with the type field as fallback; when the name is truthy and
registered, invoke every handler for it in list order, catching each
handler error individually.  The returned trace lists each invoked
handler with the outcome of its invocation. -/
def handle_message (m : HMap) (behavior : HandlerId → Except String Unit)
    (f : Frame) : List (HandlerId × Except String Unit) :=
  match pyOr f.event f.etype with
  | none => []
  | some ev =>
      if ev = "" then []
      else
        match hmapFind m ev with
        | none => []
        | some hs => hs.map (fun h => (h, behavior h))

/-- Connection-level state of a VerificationStream: the _websocket
handle, the _connected flag and the _listen_task handle. -/
structure StreamState where
  websocket : Option Nat := none
  connected : Bool := false
  handlers : HMap := []
  listenTask : Option Nat := none
deriving DecidableEq, Repr

/-- VerificationStream.connect, over the outcome of the transport
handshake (a handle on success, a raised message on failure).  Returns
the call outcome (ok, or the raised WebSocketError message), the state
after the call, and the number of receive-loop tasks started by the
call.  When already connected the call logs and returns; on handshake
failure nothing was assigned, so the state is unchanged. -/
def connect (st : StreamState) (handshake : Except String Nat)
    (newTaskId : Nat) : Except String Unit × StreamState × Nat :=
  if st.connected then (Except.ok (), st, 0)
  else
    match handshake with
    | Except.error e => (Except.error ("WebSocket 연결 실패: " ++ e), st, 0)
    | Except.ok h =>
        (Except.ok (),
         { st with websocket := some h, connected := true, listenTask := some newTaskId },
         1)

/-- One inbound observation of the receive loop: what the awaited recv
plus JSON decode produced. -/
inductive Inbound
  | closedSignal
  | badJson (e : String)
  | frame (f : Frame)
  | otherError (e : String)
deriving Repr

/-- VerificationStream._listen_loop over a list of inbound observations:
while the _connected flag holds, recv; a ConnectionClosed breaks out of
the loop (later observations are never handled), a decode error or any
other error is logged and the loop continues.  The result is the value
of the _connected flag when the loop exits together with the number of
frames handed to _handle_message; the loop body never assigns
_connected. -/
def listen_loop (m : HMap) (behavior : HandlerId → Except String Unit) :
    Bool → List Inbound → Bool × Nat
  | false, _ => (false, 0)
  | true, [] => (true, 0)
  | true, Inbound.closedSignal :: _ => (true, 0)
  | true, Inbound.badJson _ :: rest => listen_loop m behavior true rest
  | true, Inbound.frame _ :: rest =>
      let r := listen_loop m behavior true rest
      (r.1, r.2 + 1)
  | true, Inbound.otherError _ :: rest => listen_loop m behavior true rest

/-! ### Shared concrete examples used by witnesses -/

/-- A callback that always raises with message boom. -/
def cbBoom : VCallback := fun _ => Except.error "boom"

/-- A healthy callback returning a positive verdict with score 95. -/
def cbPass : VCallback := fun _ => Except.ok { valid := true, score := some 95 }

/-- A pending item with skill python. -/
def vPy : Verification := { id := "v1", agent_id := "a1", skill := some "python" }

/-- A pending item with skill ts. -/
def vTs : Verification := { id := "v2", agent_id := "a1", skill := some "ts" }

/-- A Gateway environment where the fetch returns the given items and
every submission succeeds. -/
def envAllOk (vs : List Verification) : TickEnv :=
  { fetchResult := Except.ok vs, submitResult := fun _ _ => Except.ok () }

/-! ### Registry lemmas -/

/-- Lookup after registration finds the just-registered callback. -/
theorem dictGet_register_self {α : Type} (r : Registry α) (k : String) (v : α) :
    dictGet (register_callback r k v) k = some v := by
  induction r with
  | nil => simp [register_callback, dictGet]
  | cons p rest ih =>
      obtain ⟨k0, v0⟩ := p
      by_cases h : k0 = k
      · subst h; simp [register_callback, dictGet]
      · simp [register_callback, dictGet, h, ih]

/-- Lookup after unregistration finds nothing for that key. -/
theorem dictGet_unregister_self {α : Type} (r : Registry α) (k : String) :
    dictGet (unregister_callback r k) k = none := by
  induction r with
  | nil => simp [unregister_callback, dictGet]
  | cons p rest ih =>
      obtain ⟨k0, v0⟩ := p
      by_cases h : k0 = k
      · subst h; simp [unregister_callback, ih]
      · simp [unregister_callback, h, dictGet, ih]

/-- Lookup misses on a dict that has no entry for the key. -/
theorem dictGet_not_mem {α : Type} (r : Registry α) (k : String)
    (h : ∀ p ∈ r, p.1 ≠ k) : dictGet r k = none := by
  induction r with
  | nil => simp [dictGet]
  | cons p rest ih =>
      obtain ⟨k0, v0⟩ := p
      have hk : k0 ≠ k := h (k0, v0) (by simp)
      simp only [dictGet]
      rw [if_neg (by simpa using hk)]
      exact ih (fun q hq => h q (by simp [hq]))

/-- Claim C4: callback resolution uses the skill key, falls back to the
taskType key when skill is absent, then to the sentinel key "other", and
reports not-found when the dict has no entry; lookup always returns the
most recently registered callback for a key, and after unregistration
resolution for that key falls through to the default verification. -/
theorem C4_registry_resolution (r : Registry VCallback) (k s s2 : String)
    (cb : VCallback) (t : TaskData) :
    (t.skill = some (JVal.str s) → resolvedSkill t = JVal.str s)
    ∧ (t.skill = none → t.taskType = some (JVal.str s2) →
        resolvedSkill t = JVal.str s2)
    ∧ (t.skill = none → t.taskType = none → resolvedSkill t = JVal.str "other")
    ∧ ((∀ p ∈ r, p.1 ≠ k) → dictGet r k = none)
    ∧ dictGet (register_callback r k cb) k = some cb
    ∧ dictGet (unregister_callback r k) k = none
    ∧ (resolvedSkill t = JVal.str k →
        verify_task (unregister_callback r k) t = default_verification t) := by
  refine ⟨?_, ?_, ?_, ?_, ?_, ?_, ?_⟩
  · intro h; simp [resolvedSkill, h]
  · intro h h2; simp [resolvedSkill, h, h2]
  · intro h h2; simp [resolvedSkill, h, h2]
  · exact dictGet_not_mem r k
  · exact dictGet_register_self r k cb
  · exact dictGet_unregister_self r k
  · intro h
    simp [verify_task, h, lookupCallback, dictGet_unregister_self]

/-- Witness for C4 at a concrete registry and item. -/
theorem C4_registry_resolution_witness :
    dictGet (register_callback [("python", cbBoom)] "python" cbPass) "python" =
      some cbPass
    ∧ verify_task (unregister_callback [("python", cbPass)] "python")
        { skill := some (JVal.str "python") } =
      default_verification { skill := some (JVal.str "python") } := by
  have h := C4_registry_resolution [("python", cbPass)] "python" "python" "x"
    cbPass { skill := some (JVal.str "python") }
  have h2 := C4_registry_resolution [("python", cbBoom)] "python" "python" "x"
    cbPass { skill := some (JVal.str "python") }
  exact ⟨h2.2.2.2.2.1, h.2.2.2.2.2.2 rfl⟩

/-- Claim C5: an item whose resolved key has no registered callback gets
exactly the default decision: the verifier submits valid true with score
70 and the automatic-completion feedback, and the approver validates to
valid true, which leads to an approve call. -/
theorem C5_default_decision (cbs : Registry VCallback) (acbs : Registry ACallback)
    (env : TickEnv) (t : TaskData) (va vv : Verification)
    (hnone : lookupCallback cbs (resolvedSkill t) = none)
    (hva : lookupCallback acbs (resolvedSkill (approverTaskDataOf va)) = none)
    (hstatus : va.status = VerificationStatus.approved)
    (hvv : lookupCallback cbs (resolvedSkill (taskDataOf vv)) = none)
    (hsub : env.submitResult vv.id
      { status := VerificationStatus.approved, score := some 70,
        feedback := some "자동 검증 완료", evidence := none, metadata := [] } =
      Except.ok ()) :
    verify_task cbs t =
      { valid := true, score := some 70, feedback := some "자동 검증 완료" }
    ∧ submitDataOf (verify_task cbs t) =
      { status := VerificationStatus.approved, score := some 70,
        feedback := some "자동 검증 완료", evidence := none, metadata := [] }
    ∧ processItem cbs env vv = ItemOutcome.submitted vv.id
      { status := VerificationStatus.approved, score := some 70,
        feedback := some "자동 검증 완료", evidence := none, metadata := [] }
    ∧ validate_result acbs (approverTaskDataOf va) = { valid := true }
    ∧ approverProcessItem acbs va = ApproverAction.approveCall va.id := by
  refine ⟨?_, ?_, ?_, ?_, ?_⟩
  · simp [verify_task, hnone, default_verification]
  · simp [verify_task, hnone, default_verification, submitDataOf]
  · simp [processItem, verify_task, hvv, default_verification, submitDataOf, hsub]
  · simp [validate_result, hva]
  · simp [approverProcessItem, hstatus, validate_result, hva]

/-- Witness for C5 at an unregistered skill. -/
theorem C5_default_decision_witness :
    verify_task [] { skill := some (JVal.str "rust") } =
      { valid := true, score := some 70, feedback := some "자동 검증 완료" }
    ∧ processItem [] (envAllOk [vPy]) vPy = ItemOutcome.submitted "v1"
      { status := VerificationStatus.approved, score := some 70,
        feedback := some "자동 검증 완료", evidence := none, metadata := [] }
    ∧ approverProcessItem []
        { vPy with status := VerificationStatus.approved } =
      ApproverAction.approveCall "v1" := by
  have h := C5_default_decision [] [] (envAllOk [vPy])
    { skill := some (JVal.str "rust") }
    { vPy with status := VerificationStatus.approved } vPy
    rfl rfl rfl rfl rfl
  exact ⟨h.1, h.2.2.1, h.2.2.2.2⟩

/-- Claim C3: an item routed to a raising callback yields a submitted
degraded decision with valid false, score 0 and feedback carrying the
error text; every sibling item in the same tick is still processed by the
per-item function, and an item routed to a healthy callback is still
submitted with that callback's decision; the tick function is total, so
no exception escapes to the embedding program. -/
theorem C3_callback_error_isolation (cbs : Registry VCallback) (env : TickEnv)
    (vs : List Verification) (hf : env.fetchResult = Except.ok vs) :
    runTick cbs env = TickResult.processed (vs.map (processItem cbs env))
    ∧ (∀ v ∈ vs, ∀ cb : VCallback, ∀ e : String,
        lookupCallback cbs (resolvedSkill (taskDataOf v)) = some cb →
        cb (taskDataOf v) = Except.error e →
        env.submitResult v.id
          { status := VerificationStatus.rejected, score := some 0,
            feedback := some (errText e), evidence := none, metadata := [] } =
          Except.ok () →
        processItem cbs env v = ItemOutcome.submitted v.id
          { status := VerificationStatus.rejected, score := some 0,
            feedback := some (errText e), evidence := none, metadata := [] })
    ∧ (∀ v ∈ vs, ∀ cb : VCallback, ∀ r : VerificationResult,
        lookupCallback cbs (resolvedSkill (taskDataOf v)) = some cb →
        cb (taskDataOf v) = Except.ok r →
        env.submitResult v.id (submitDataOf r) = Except.ok () →
        processItem cbs env v = ItemOutcome.submitted v.id (submitDataOf r))
    ∧ (∀ e : String, ∃ pre, errText e = pre ++ e) := by
  refine ⟨?_, ?_, ?_, ?_⟩
  · simp [runTick, hf]
  · intro v _ cb e hcb hraise hsub
    simp [processItem, verify_task, hcb, hraise, submitDataOf, hsub]
  · intro v _ cb r hcb hok hsub
    simp [processItem, verify_task, hcb, hok, hsub]
  · intro e; exact ⟨"검증 중 오류 발생: ", rfl⟩

/-- Witness for C3: a raising callback for python and a healthy one for
ts, two sibling items in one tick. -/
theorem C3_callback_error_isolation_witness :
    runTick [("python", cbBoom), ("ts", cbPass)] (envAllOk [vPy, vTs]) =
      TickResult.processed
        [ItemOutcome.submitted "v1"
          { status := VerificationStatus.rejected, score := some 0,
            feedback := some (errText "boom"), evidence := none, metadata := [] },
         ItemOutcome.submitted "v2"
          { status := VerificationStatus.approved, score := some 95,
            feedback := none, evidence := none, metadata := [] }] := by
  have h := C3_callback_error_isolation [("python", cbBoom), ("ts", cbPass)]
    (envAllOk [vPy, vTs]) [vPy, vTs] rfl
  have h1 := h.2.1 vPy (by simp) cbBoom "boom" rfl rfl rfl
  have h2 := h.2.2.1 vTs (by simp) cbPass { valid := true, score := some 95 }
    rfl rfl rfl
  rw [h.1]
  simp only [List.map_cons, List.map_nil]
  rw [h1, h2]
  simp [vPy, vTs, submitDataOf]

/-- Claim C6: the polling loop never terminates because of a fetch error:
a failed fetch produces a logged tick result and the loop still runs
every later tick; a submission failure for one item yields a logged
per-item outcome, and the per-item map still produces an outcome for
every other item of the tick. -/
theorem C6_loop_resilience (cbs : Registry VCallback) (env envOk : TickEnv)
    (envs : List TickEnv) (e : String) (vs : List Verification)
    (hf : env.fetchResult = Except.error e)
    (hok : envOk.fetchResult = Except.ok vs) :
    run_loop cbs (env :: envs) = TickResult.fetchError e :: run_loop cbs envs
    ∧ runTick cbs envOk = TickResult.processed (vs.map (processItem cbs envOk))
    ∧ (∀ v : Verification, ∀ err : String,
        envOk.submitResult v.id (submitDataOf (verify_task cbs (taskDataOf v))) =
          Except.error err →
        processItem cbs envOk v = ItemOutcome.submitFailed v.id
          (submitDataOf (verify_task cbs (taskDataOf v))) err)
    ∧ (∀ (v1 : Verification) (rest : List Verification),
        (v1 :: rest).map (processItem cbs envOk) =
          processItem cbs envOk v1 :: rest.map (processItem cbs envOk)) := by
  refine ⟨?_, ?_, ?_, ?_⟩
  · simp [run_loop, runTick, hf]
  · simp [runTick, hok]
  · intro v err hsub
    simp [processItem, hsub]
  · intro v1 rest; simp

/-- Witness for C6: a tick whose fetch fails, followed by a tick whose
first submission fails while the second item is still processed. -/
theorem C6_loop_resilience_witness :
    run_loop [] [{ fetchResult := Except.error "net down",
                   submitResult := fun _ _ => Except.ok () },
                 envAllOk []] =
      TickResult.fetchError "net down" :: run_loop [] [envAllOk []]
    ∧ processItem [] { fetchResult := Except.ok [vPy],
                       submitResult := fun _ _ => Except.error "http 500" } vPy =
      ItemOutcome.submitFailed "v1"
        (submitDataOf (verify_task [] (taskDataOf vPy))) "http 500" := by
  have h := C6_loop_resilience []
    { fetchResult := Except.error "net down", submitResult := fun _ _ => Except.ok () }
    { fetchResult := Except.ok [vPy], submitResult := fun _ _ => Except.error "http 500" }
    [envAllOk []] "net down" [vPy] rfl rfl
  exact ⟨h.1, h.2.2.1 vPy "http 500" rfl⟩

/-- Registering a handler appends it to the list for its event name. -/
theorem hmapFind_onEvent (m : HMap) (ev : String) (h : HandlerId) :
    hmapFind (onEvent m ev h) ev = some ((hmapFind m ev).getD [] ++ [h]) := by
  induction m with
  | nil => simp [onEvent, hmapFind]
  | cons p rest ih =>
      obtain ⟨k0, hs⟩ := p
      by_cases hk : k0 = ev
      · subst hk; simp [onEvent, hmapFind]
      · simp [onEvent, hmapFind, hk, ih]

/-- Claim C7: a decoded frame whose event name has registered handlers
invokes every one of them exactly once, in registration order, and the
invoked sequence does not depend on any handler failing; a frame whose
event name has no registered handlers is dropped silently; registering
two handlers for one event name queues them in registration order. -/
theorem C7_handler_dispatch (m : HMap) (behavior : HandlerId → Except String Unit)
    (f : Frame) (ev : String) (hs : List HandlerId) (h1 h2 : HandlerId)
    (hev : pyOr f.event f.etype = some ev) (hne : ev ≠ "") :
    (hmapFind m ev = some hs →
        handle_message m behavior f = hs.map (fun h => (h, behavior h))
        ∧ (handle_message m behavior f).map Prod.fst = hs)
    ∧ (hmapFind m ev = none → handle_message m behavior f = [])
    ∧ hmapFind (onEvent (onEvent m ev h1) ev h2) ev =
        some ((hmapFind m ev).getD [] ++ [h1] ++ [h2]) := by
  refine ⟨?_, ?_, ?_⟩
  · intro hfind
    constructor
    · simp [handle_message, hev, hne, hfind]
    · have hid : (Prod.fst ∘ fun h : HandlerId => (h, behavior h)) = id := rfl
      simp [handle_message, hev, hne, hfind, List.map_map, hid]
  · intro hfind
    simp [handle_message, hev, hne, hfind]
  · rw [hmapFind_onEvent, hmapFind_onEvent]
    simp

/-- Witness for C7: two handlers registered for tier_updated, the first
one raising; both are invoked once, in registration order. -/
theorem C7_handler_dispatch_witness :
    handle_message (onEvent (onEvent [] "tier_updated" 1) "tier_updated" 2)
        (fun h => if h = 1 then Except.error "handler boom" else Except.ok ())
        { event := some "tier_updated" } =
      [(1, Except.error "handler boom"), (2, Except.ok ())] := by
  have h := C7_handler_dispatch
    (onEvent (onEvent [] "tier_updated" 1) "tier_updated" 2)
    (fun h => if h = 1 then Except.error "handler boom" else Except.ok ())
    { event := some "tier_updated" } "tier_updated" [1, 2] 1 2 rfl (by decide)
  have h2 := (h.1 rfl).1
  rw [h2]
  simp

/-- Claim C8: start while already running is a no-op that creates no
second task, a double start from idle creates exactly one task, stop
while idle returns without error, and a second consecutive stop also
returns without error. -/
theorem C8_lifecycle_idempotence (st : RunnerLifecycle) (t1 t2 : Nat) :
    (st.running = true → start st t1 = (st, 0))
    ∧ (st.running = false →
        (start st t1).2 = 1
        ∧ (start (start st t1).1 t2).1 = (start st t1).1
        ∧ (start (start st t1).1 t2).2 = 0)
    ∧ (st.running = false → stop st = Except.ok st)
    ∧ (∀ st2 : RunnerLifecycle, stop st = Except.ok st2 →
        stop st2 = Except.ok st2) := by
  refine ⟨?_, ?_, ?_, ?_⟩
  · intro h; simp [start, h]
  · intro h; simp [start, h]
  · intro h; simp [stop, h]
  · intro st2 h
    by_cases hr : st.running
    · simp [stop, hr] at h
      simp [stop, ← h]
    · simp [stop, hr] at h
      simp [stop, ← h, hr]

/-- Witness for C8 at a fresh idle runner. -/
theorem C8_lifecycle_idempotence_witness :
    (start { running := false, task := none } 1).2 = 1
    ∧ (start (start { running := false, task := none } 1).1 2).2 = 0
    ∧ stop { running := false, task := none } =
        Except.ok { running := false, task := none } := by
  have h := C8_lifecycle_idempotence { running := false, task := none } 1 2
  exact ⟨(h.2.1 rfl).1, (h.2.1 rfl).2.2, h.2.2.1 rfl⟩

/-- Claim C1 (code evaluated at the failing input): a receive loop
started with the _connected flag true that observes a closed-connection
signal exits the loop without dispatching anything, and the _connected
flag is still true afterwards, so connected() reports true, not the
Disconnected state the specification requires. -/
theorem C1_remote_close_leaves_flag_true :
    listen_loop [] (fun _ => Except.ok ()) true [Inbound.closedSignal] = (true, 0) :=
  rfl

/-- A stream that is already connected. -/
def stAlready : StreamState :=
  { websocket := some 5, connected := true, handlers := [], listenTask := some 9 }

/-- Counterexample to C1-adjacent claim C2 as stated: connect on an
already-connected stream returns without any error (and starts no second
receive loop), rather than failing with a ConnectionError. -/
theorem C2_counterexample :
    connect stAlready (Except.ok 7) 1 = (Except.ok (), stAlready, 0) := rfl

/-- Claim C2 (amended): connect while already connected is a logged
no-op that returns without error and starts no task; connect raises a
WebSocketError when the transport handshake fails; on success it sets
the Connected state and starts exactly one receive loop task. -/
theorem C2_connect_contract (st : StreamState) (hs : Except String Nat)
    (tid h : Nat) (e : String) :
    (st.connected = true → connect st hs tid = (Except.ok (), st, 0))
    ∧ (st.connected = false → hs = Except.error e →
        connect st hs tid = (Except.error ("WebSocket 연결 실패: " ++ e), st, 0))
    ∧ (st.connected = false → hs = Except.ok h →
        connect st hs tid =
          (Except.ok (),
           { st with
              websocket := some h
              connected := true
              listenTask := some tid },
           1)) := by
  refine ⟨?_, ?_, ?_⟩
  · intro hc; simp [connect, hc]
  · intro hc he; simp [connect, hc, he]
  · intro hc he; simp [connect, hc, he]

/-- Witness for the amended C2 on a fresh stream: failed handshake
raises, successful handshake connects and starts one task. -/
theorem C2_connect_contract_witness :
    connect {} (Except.error "refused") 1 =
      (Except.error ("WebSocket 연결 실패: " ++ "refused"), {}, 0)
    ∧ connect {} (Except.ok 7) 1 =
      (Except.ok (),
       { websocket := some 7, connected := true, handlers := [],
         listenTask := some 1 },
       1) := by
  have h1 := (C2_connect_contract {} (Except.error "refused") 1 7 "refused").2.1 rfl rfl
  have h2 := (C2_connect_contract {} (Except.ok 7) 1 7 "refused").2.2 rfl rfl
  exact ⟨h1, h2⟩

/-- Claim C10: when the handshake inside connect fails, the call raises a
WebSocketError, the state is unchanged (still disconnected, same
transport handle, same listen-task handle), no receive-loop task is
started, and a later connect from that state can still succeed. -/
theorem C10_failed_connect_clean_state (st : StreamState) (e : String) (tid : Nat)
    (hc : st.connected = false) :
    (connect st (Except.error e) tid).1 =
      Except.error ("WebSocket 연결 실패: " ++ e)
    ∧ (connect st (Except.error e) tid).2.1 = st
    ∧ (connect st (Except.error e) tid).2.1.connected = false
    ∧ (connect st (Except.error e) tid).2.1.websocket = st.websocket
    ∧ (connect st (Except.error e) tid).2.1.listenTask = st.listenTask
    ∧ (connect st (Except.error e) tid).2.2 = 0
    ∧ (∀ h tid2 : Nat,
        (connect ((connect st (Except.error e) tid).2.1) (Except.ok h) tid2).1 =
          Except.ok ()
        ∧ (connect ((connect st (Except.error e) tid).2.1) (Except.ok h) tid2).2.1.connected =
          true
        ∧ (connect ((connect st (Except.error e) tid).2.1) (Except.ok h) tid2).2.2 = 1) := by
  refine ⟨?_, ?_, ?_, ?_, ?_, ?_, ?_⟩
  · simp [connect, hc]
  · simp [connect, hc]
  · simp [connect, hc]
  · simp [connect, hc]
  · simp [connect, hc]
  · simp [connect, hc]
  · intro h tid2; simp [connect, hc]

/-- Witness for C10 on a fresh stream with a refused handshake. -/
theorem C10_failed_connect_clean_state_witness :
    (connect {} (Except.error "refused") 3).1 =
      Except.error ("WebSocket 연결 실패: " ++ "refused")
    ∧ (connect {} (Except.error "refused") 3).2.1 = ({} : StreamState)
    ∧ (connect {} (Except.error "refused") 3).2.2 = 0 := by
  have h := C10_failed_connect_clean_state {} "refused" 3 rfl
  exact ⟨h.1, h.2.1, h.2.2.2.2.2.1⟩

/-- Once the background task has finished, every later step keeps it
finished and cannot be a Gateway call. -/
theorem rstep_dead {s s2 : RunnerSys} {e : REvent} (hs : RStep s e s2)
    (hd : s.taskAlive = false) :
    s2.taskAlive = false ∧ e ≠ REvent.gatewayCall := by
  cases hs <;> simp_all

/-- No Gateway call occurs anywhere along a trace that starts with the
background task already finished. -/
theorem rtrace_dead {s s2 : RunnerSys} {l : List REvent} (ht : RTrace s l s2) :
    s.taskAlive = false → REvent.gatewayCall ∉ l := by
  induction ht with
  | nil => intro _; simp
  | cons hstep htr ih =>
      intro hd
      have h2 := rstep_dead hstep hd
      simp only [List.mem_cons, not_or]
      exact ⟨fun he => h2.2 he.symm, ih h2.1⟩

/-- The background task stays unfinished along a trace containing no
task-exit event. -/
theorem rtrace_alive {s s2 : RunnerSys} {l : List REvent} (ht : RTrace s l s2) :
    s.taskAlive = true → REvent.taskExit ∉ l → s2.taskAlive = true := by
  induction ht with
  | nil => intro h _; exact h
  | cons hstep htr ih =>
      intro ha hne
      simp only [List.mem_cons, not_or] at hne
      cases hstep with
      | gateway h => exact ih ha hne.2
      | texit h => exact absurd rfl hne.1
      | sbegin => exact ih (by simpa using ha) hne.2
      | sreturn h1 h2 => rw [ha] at h2; cases h2

/-- A trace over an appended event list splits at the boundary. -/
theorem rtrace_append {s s3 : RunnerSys} {l1 l2 : List REvent}
    (ht : RTrace s (l1 ++ l2) s3) :
    ∃ s2, RTrace s l1 s2 ∧ RTrace s2 l2 s3 := by
  induction l1 generalizing s with
  | nil => exact ⟨s, RTrace.nil s, ht⟩
  | cons e es ih =>
      cases ht with
      | cons hstep htr =>
          obtain ⟨smid, hA, hB⟩ := ih htr
          exact ⟨smid, RTrace.cons hstep hA, hB⟩

/-- Claim C9: in every execution that starts right after start() and in
which stop() returns, the background task finished before stop()
returned, and no Gateway call happens after stop() returned. -/
theorem C9_stop_quiescence (l1 l2 : List REvent) (sf : RunnerSys)
    (ht : RTrace initRunnerSys (l1 ++ REvent.stopReturn :: l2) sf) :
    REvent.taskExit ∈ l1 ∧ REvent.gatewayCall ∉ l2 := by
  obtain ⟨smid, htr1, htr2⟩ := rtrace_append ht
  cases htr2 with
  | cons hstep htr3 =>
      cases hstep with
      | sreturn hrun hdead =>
          constructor
          · by_contra hne
            have halive := rtrace_alive htr1 rfl hne
            rw [halive] at hdead
            cases hdead
          · exact rtrace_dead htr3 (by simpa using hdead)

/-- Witness for C9: the execution stop-begin, task-exit, stop-return. -/
theorem C9_stop_quiescence_witness :
    REvent.taskExit ∈ [REvent.stopBegin, REvent.taskExit]
    ∧ REvent.gatewayCall ∉ ([] : List REvent) := by
  refine C9_stop_quiescence [REvent.stopBegin, REvent.taskExit] []
    { running := false, taskAlive := false, stopReturned := true } ?_
  exact RTrace.cons (RStep.sbegin initRunnerSys)
    (RTrace.cons (RStep.texit _ rfl)
      (RTrace.cons (RStep.sreturn _ rfl rfl) (RTrace.nil _)))

end ZkestSDK
